import Mathlib

/-!
Verification of the batch/track processing orchestrator of
`backend/app/main.py` (function `process_faixa`), against the data model
of `backend/app/models.py`.

The embedding below is a shallow one:

* Database rows become Lean structures (`Faixa`, `EventoFaixa`); the
  SQLAlchemy JSON-dict columns (`ids_suno`, `urls`) become association
  lists; `datetime` columns that the orchestrator only ever *sets* are
  modelled as `Bool` flags recording whether they were set.
* The external collaborator `suno_client_stub` is modelled as an
  environment (`Env`) giving, for each attempt number, the outcome of
  that attempt's `custom_generate` call and of the `extend_audio` call
  issued inside the same loop iteration: either `Except.error e`
  (the Python coroutine raised, message `e`) or `Except.ok r` (it
  returned `r`).  The filesystem check `Path(...).exists()` /
  `stat().st_size` on the returned artifact is folded into the outcome
  as `file_size : Option Nat` (`none` = the file does not exist).
* Python floats are modelled as `ℚ`.
* Every `db.commit()` of `process_faixa` is recorded as a snapshot of
  the track row in a trace list, so that invariants can be stated "at
  every committed point" of a run.
-/

namespace DraMusicas

/-- `StatusEnum` from `models.py` (lines 24-32). -/
inductive StatusEnum
  | SUBMETENDO
  | GERANDO
  | OBTENDO
  | ESTENDENDO
  | BAIXANDO
  | FINALIZADA
  | ERRO
deriving DecidableEq

/-- `EventoFaixa` from `models.py` (lines 80-90): one audit record of a
track (stage label, optional detail, creation timestamp). -/
structure EventoFaixa where
  etapa : String
  detalhe : Option String
  timestamp : Nat
deriving DecidableEq

/-- `Faixa` from `models.py` (lines 50-77), restricted to the columns the
orchestrator reads or writes, plus the `eventos` relationship. -/
structure Faixa where
  titulo : String
  estilo : String
  modelo : String
  status : StatusEnum
  duracao_alvo : ℚ
  duracao_final : Option ℚ
  wav_nativo : Bool
  tentativas : Nat
  extends_usados : Nat
  ids_suno : List (String × String)
  urls : List (String × String)
  caminho_arquivo : Option String
  tempo_submissao : Bool
  tempo_geracao : Bool
  tempo_download : Bool
  erros : Option String
  eventos : List EventoFaixa
deriving DecidableEq

/-- A fresh track as intake creates it (`main.py` lines 136-146 together
with the column defaults of `models.py`): status `SUBMETENDO`, zeroed
counters, no artifacts, no events. -/
def mkFaixa (titulo estilo modelo : String) (alvo : ℚ) : Faixa :=
  { titulo := titulo
    estilo := estilo
    modelo := modelo
    status := StatusEnum.SUBMETENDO
    duracao_alvo := alvo
    duracao_final := none
    wav_nativo := false
    tentativas := 0
    extends_usados := 0
    ids_suno := []
    urls := []
    caminho_arquivo := none
    tempo_submissao := false
    tempo_geracao := false
    tempo_download := false
    erros := none
    eventos := [] }

/-- Successful result of one `custom_generate` call (`main.py` lines
233-241): provider id, artifact location, native-wav flag, and the size
of the downloaded file (`none` when `Path(...).exists()` is false). -/
structure GenOk where
  gen_id : String
  audio_url : String
  wav_native : Bool
  file_size : Option Nat
deriving DecidableEq

/-- Successful result of one `extend_audio` call (`main.py` lines
269-271), with the size of the extension artifact (`none` when the file
does not exist). -/
structure ExtOk where
  ext_id : String
  audio_url : String
  file_size : Option Nat
deriving DecidableEq

/-- The external generation service as the orchestrator observes it: the
outcome of the `custom_generate` call made in the loop iteration with
attempt number `a`, and of the `extend_audio` call made in that same
iteration (when one is made).  `Except.error e` models the awaited
coroutine raising with message `e`. -/
structure Env where
  custom_generate : Nat → Except String GenOk
  extend_audio : Nat → Except String ExtOk

/-- The batch parameters threaded into `process_faixa` (`main.py` lines
203-213). `timeout` is carried exactly as in the source, where the
parameter is accepted by `process_faixa` but never read. -/
structure Params where
  modelo : String
  prefer_wav : Bool
  allow_mp3_to_wav : Bool
  duracao_alvo : ℚ
  extend_enabled : Bool
  extends_max : Nat
  retries : Nat
  timeout : ℚ
deriving DecidableEq

/-- Exact rational addition written through `mkRat` so that it reduces
inside the kernel; `ratAdd_eq_add` below proves it equal to `q + r`. -/
def ratAdd (q r : ℚ) : ℚ :=
  mkRat (q.num * r.den + q.den * r.num) (q.den * r.den)

/-- Exact rational division of a byte count by the fixed constant
`44100 * 2`, written through `mkRat` so that it reduces inside the
kernel; `sizeDur_eq_div` below proves it equal to `s / (44100 * 2)`. -/
def sizeDur (s : Nat) : ℚ :=
  mkRat s (44100 * 2)

/-- Duration estimate of a generation artifact (`main.py` lines 250-257):
`file_size / (44100 * 2)` when the file exists, `None` otherwise. -/
def genDur (g : GenOk) : Option ℚ :=
  g.file_size.map sizeDur

/-- Duration estimate of an extension artifact (`main.py` lines 282-287):
`file_size / (44100 * 2)` when the file exists, else the requested
`extend_seconds = 60.0`. -/
def extDur (x : ExtOk) : ℚ :=
  match x.file_size with
  | some s => sizeDur s
  | none => 60

/-- The Python condition `faixa.duracao_final and faixa.duracao_final >=
duracao_alvo` (`main.py` line 259): `None` and `0.0` are falsy, so the
test succeeds only for a present, non-zero duration at or above the
target. -/
def durTruthyGe (d : Option ℚ) (alvo : ℚ) : Bool :=
  match d with
  | none => false
  | some v => if v = 0 then false else decide (alvo ≤ v)

/-- The `except Exception` handler of `process_faixa` (`main.py` lines
310-314): status `ERRO`, detail stored in `erros`. -/
def setErro (e : String) (f : Faixa) : Faixa :=
  { f with status := StatusEnum.ERRO, erros := some e }

/-- Track state after a successful `custom_generate` call (`main.py`
lines 242-257): `ids_suno` is reassigned to a one-entry dict, `urls`,
`wav_nativo`, `caminho_arquivo` and `tempo_geracao` are set, and the
duration estimate is recomputed from the artifact size. -/
def afterGen (g : GenOk) (f : Faixa) : Faixa :=
  { f with
    ids_suno := [("initial", g.gen_id)]
    urls := [("audio_url", g.audio_url)]
    wav_nativo := g.wav_native
    caminho_arquivo := some g.audio_url
    tempo_geracao := true
    duracao_final := genDur g }

/-- Track state after a successful `extend_audio` call (`main.py` lines
272-291): the extends counter is incremented, the new provider id is
recorded under `extend_<n>`, the extension estimate is added to the old
duration (`faixa.duracao_final or 0`, so `None` and `0.0` both count as
`0`), and the artifact path is replaced by the latest extension file. -/
def afterExtend (x : ExtOk) (f : Faixa) : Faixa :=
  { f with
    extends_usados := f.extends_usados + 1
    ids_suno := f.ids_suno ++ [("extend_" ++ toString (f.extends_usados + 1), x.ext_id)]
    duracao_final := some (ratAdd (f.duracao_final.getD 0) (extDur x))
    caminho_arquivo := some x.audio_url }

/-- Outcome of one iteration of the `while attempts <= retries` loop:
either the loop ends (`break`, or an exception caught by the outer
handler) with the resulting row and committed snapshots, or the
iteration ends in `continue` and the loop re-enters. -/
inductive IterOut
  | stop (f : Faixa) (tr : List Faixa)
  | next (f : Faixa) (tr : List Faixa)
deriving DecidableEq

/-- One iteration of the loop body of `process_faixa` (`main.py` lines
230-305), at attempt number `a` (the value of `attempts` after the
increment at line 230).  An `Except.error` outcome of either awaited
call models the coroutine raising; the exception is caught only by the
outer `except Exception` handler (lines 310-314), which is folded in
here via `setErro` because nothing else runs in between. -/
def runIter (env : Env) (p : Params) (a : Nat) (f : Faixa) : IterOut :=
  let f1 := { f with tentativas := a }
  match env.custom_generate a with
  | Except.error e => IterOut.stop (setErro e f1) [setErro e f1]
  | Except.ok g =>
    let f2 := afterGen g f1
    if durTruthyGe f2.duracao_final p.duracao_alvo then
      let f3 := { f2 with status := StatusEnum.FINALIZADA }
      IterOut.stop f3 [f2, f3]
    else if p.extend_enabled = true ∧ a ≤ p.extends_max then
      let f3 := { f2 with status := StatusEnum.ESTENDENDO }
      match env.extend_audio a with
      | Except.error e => IterOut.stop (setErro e f3) [f2, f3, setErro e f3]
      | Except.ok x =>
        let f4 := afterExtend x f3
        if p.duracao_alvo ≤ f4.duracao_final.getD 0 then
          let f5 := { f4 with status := StatusEnum.FINALIZADA }
          IterOut.stop f5 [f2, f3, f4, f5]
        else
          IterOut.next f4 [f2, f3, f4]
    else
      let f3 := { f2 with status := StatusEnum.FINALIZADA }
      IterOut.stop f3 [f2, f3]

/-- The `while attempts <= retries` loop of `process_faixa` (`main.py`
lines 229-309).  `gas` is the number of loop-condition checks still to
come that can succeed, i.e. `retries + 1 - attempts`; `gas = 0` is
exactly the loop condition failing, which runs the `while`-`else`
branch (lines 306-309): status `ERRO`, no error detail stored. -/
def processLoopAux (env : Env) (p : Params) : Nat → Nat → Faixa → Faixa × List Faixa
  | 0, _, f =>
    let f1 := { f with status := StatusEnum.ERRO }
    (f1, [f1])
  | gas + 1, attempts, f =>
    match runIter env p (attempts + 1) f with
    | IterOut.stop f1 tr => (f1, tr)
    | IterOut.next f1 tr =>
      let r := processLoopAux env p gas (attempts + 1) f1
      (r.1, tr ++ r.2)

/-- The loop started with `attempts = 0` (`main.py` line 228), so with
`gas = retries + 1`. -/
def processLoop (env : Env) (p : Params) (f : Faixa) : Faixa × List Faixa :=
  processLoopAux env p (p.retries + 1) 0 f

/-- Full processing of an existing track row (`main.py` lines 222-318):
mark submission time, set status `GERANDO` and commit; run the
retry/extend loop; finally mark the completion timestamp and commit.
Returns the final row and the list of committed snapshots in order. -/
def runFaixa (env : Env) (p : Params) (faixa : Faixa) : Faixa × List Faixa :=
  let f0 := { faixa with tempo_submissao := true, status := StatusEnum.GERANDO }
  let r := processLoop env p f0
  let ffin := { r.1 with tempo_download := true }
  (ffin, f0 :: (r.2 ++ [ffin]))

/-- `process_faixa` (`main.py` lines 203-318) as a function of the
stored row looked up by `faixa_id`: when the lookup returns nothing the
function closes the session and returns (lines 218-221), leaving the
store untouched; otherwise it processes the row. -/
def process_faixa (env : Env) (p : Params) (store : Option Faixa) :
    Option (Faixa × List Faixa) :=
  match store with
  | none => none
  | some faixa => some (runFaixa env p faixa)

/-- Final stored row of a run on an existing track. -/
def finalFaixa (env : Env) (p : Params) (f : Faixa) : Faixa :=
  (runFaixa env p f).1

/-- Committed snapshots of a run on an existing track, in commit order. -/
def faixaTrace (env : Env) (p : Params) (f : Faixa) : List Faixa :=
  (runFaixa env p f).2

/-- What one loop iteration can do to the row: it sets `tentativas` to
the iteration's attempt number, never touches `eventos`, and leaves the
extends counter unchanged unless it performed an extension, which it may
only do when the attempt number is at most `extends_max`. -/
def IterStateOk (p : Params) (a : Nat) (f s : Faixa) : Prop :=
  s.tentativas = a ∧ s.eventos = f.eventos ∧
    (s.extends_usados = f.extends_usados ∨
      (s.extends_usados = f.extends_usados + 1 ∧ a ≤ p.extends_max))

/-- The row committed when an iteration finalizes straight after its
generation (`main.py` lines 259-262 and 301-305). -/
def genFinalize (a : Nat) (g : GenOk) (f : Faixa) : Faixa :=
  { afterGen g { f with tentativas := a } with status := StatusEnum.FINALIZADA }

/-- The row committed after a successful extension inside the iteration
with attempt number `a` (`main.py` lines 264-292). -/
def genExtState (a : Nat) (g : GenOk) (x : ExtOk) (f : Faixa) : Faixa :=
  afterExtend x { afterGen g { f with tentativas := a } with status := StatusEnum.ESTENDENDO }

/-! ### Concrete inputs used by counterexamples and witnesses

File sizes are chosen so that the estimate `size / (44100 * 2)` is a
round number of seconds: `13230000 = 150 * 88200`, `5292000 = 60 * 88200`,
`26460000 = 300 * 88200`. -/

/-- A generation artifact estimated at 150 seconds. -/
def gen150 : GenOk :=
  { gen_id := "fake_100001", audio_url := "generated_audio/fake_100001.wav",
    wav_native := true, file_size := some 13230000 }

/-- A generation artifact estimated at 300 seconds. -/
def gen300 : GenOk :=
  { gen_id := "fake_100002", audio_url := "generated_audio/fake_100002.wav",
    wav_native := true, file_size := some 26460000 }

/-- A generation result whose artifact file does not exist. -/
def genMissing : GenOk :=
  { gen_id := "fake_100003", audio_url := "generated_audio/fake_100003.wav",
    wav_native := true, file_size := none }

/-- An extension artifact estimated at 60 seconds. -/
def ext60 : ExtOk :=
  { ext_id := "fake_100001_ext_1", audio_url := "generated_audio/fake_100001_ext_1.wav",
    file_size := some 5292000 }

/-- C1: every generation attempt raises. -/
def envC1 : Env :=
  { custom_generate := fun _ => Except.error "GenerationFailure: simulated"
    extend_audio := fun _ => Except.ok ext60 }

/-- C1: default batch parameters, three retries. -/
def pC1 : Params :=
  { modelo := "v4.5", prefer_wav := true, allow_mp3_to_wav := true,
    duracao_alvo := 360, extend_enabled := true, extends_max := 2,
    retries := 3, timeout := 480 }

/-- C1: a fresh track. -/
def faixaC1 : Faixa := mkFaixa "Track A" "rock" "v4.5" 360

/-- C2: generation succeeds at 150 s, every extension raises. -/
def envC2 : Env :=
  { custom_generate := fun _ => Except.ok gen150
    extend_audio := fun _ => Except.error "ExtensionFailure: simulated" }

/-- C2: target 240 s, extension enabled, up to 2 extends, 3 retries. -/
def pC2 : Params :=
  { modelo := "v4.5", prefer_wav := true, allow_mp3_to_wav := true,
    duracao_alvo := 240, extend_enabled := true, extends_max := 2,
    retries := 3, timeout := 480 }

/-- C2: a fresh track. -/
def faixaC2 : Faixa := mkFaixa "Track B" "rock" "v4.5" 240

/-- C3 (Scenario B): every generation is estimated at 150 s and every
extension at 60 s, all calls succeed. -/
def envC3 : Env :=
  { custom_generate := fun _ => Except.ok gen150
    extend_audio := fun _ => Except.ok ext60 }

/-- C3 (Scenario B): target 240 s, extension enabled, extends_max 2,
default retries 3. -/
def pC3 : Params :=
  { modelo := "v4.5", prefer_wav := true, allow_mp3_to_wav := true,
    duracao_alvo := 240, extend_enabled := true, extends_max := 2,
    retries := 3, timeout := 480 }

/-- C3: a fresh track. -/
def faixaC3 : Faixa := mkFaixa "Track C" "rock" "v4.5" 240

/-- C4: generation immediately reaches the target (300 s ≥ 240 s). -/
def envC4 : Env :=
  { custom_generate := fun _ => Except.ok gen300
    extend_audio := fun _ => Except.ok ext60 }

/-- C4: a batch configured with `retries = 0`. -/
def pC4 : Params :=
  { modelo := "v4.5", prefer_wav := true, allow_mp3_to_wav := true,
    duracao_alvo := 240, extend_enabled := true, extends_max := 2,
    retries := 0, timeout := 480 }

/-- C4: a fresh track. -/
def faixaC4 : Faixa := mkFaixa "Track D" "rock" "v4.5" 240

/-- C5: generations at 150 s, extensions at 60 s, all succeeding. -/
def envC5 : Env :=
  { custom_generate := fun _ => Except.ok gen150
    extend_audio := fun _ => Except.ok ext60 }

/-- C5: target 240 s, extension enabled, extends_max 2, retries 3. -/
def pC5 : Params :=
  { modelo := "v4.5", prefer_wav := true, allow_mp3_to_wav := true,
    duracao_alvo := 240, extend_enabled := true, extends_max := 2,
    retries := 3, timeout := 480 }

/-- C5: a fresh track. -/
def faixaC5 : Faixa := mkFaixa "Track E" "rock" "v4.5" 240

/-- C6: generation immediately reaches the target. -/
def envC6 : Env :=
  { custom_generate := fun _ => Except.ok gen300
    extend_audio := fun _ => Except.ok ext60 }

/-- C6: default batch parameters. -/
def pC6 : Params :=
  { modelo := "v4.5", prefer_wav := true, allow_mp3_to_wav := true,
    duracao_alvo := 240, extend_enabled := true, extends_max := 2,
    retries := 3, timeout := 480 }

/-- C6: a fresh track (its event list is empty at intake). -/
def faixaC6 : Faixa := mkFaixa "Track F" "rock" "v4.5" 240

/-- C7: the first generation attempt times out (the awaited call raises
a timeout error). -/
def envC7 : Env :=
  { custom_generate := fun _ => Except.error "GenerationTimeout: simulated"
    extend_audio := fun _ => Except.ok ext60 }

/-- C7: two retries configured, per-attempt timeout 480 s. -/
def pC7 : Params :=
  { modelo := "v4.5", prefer_wav := true, allow_mp3_to_wav := true,
    duracao_alvo := 360, extend_enabled := true, extends_max := 2,
    retries := 2, timeout := 480 }

/-- C7: a fresh track. -/
def faixaC7 : Faixa := mkFaixa "Track G" "rock" "v4.5" 360

/-- C8: generations at 150 s, extensions at 60 s, all succeeding. -/
def envC8 : Env :=
  { custom_generate := fun _ => Except.ok gen150
    extend_audio := fun _ => Except.ok ext60 }

/-- C8: target 240 s, extension enabled, extends_max 2, retries 3. -/
def pC8 : Params :=
  { modelo := "v4.5", prefer_wav := true, allow_mp3_to_wav := true,
    duracao_alvo := 240, extend_enabled := true, extends_max := 2,
    retries := 3, timeout := 480 }

/-- C8: a fresh track. -/
def faixaC8 : Faixa := mkFaixa "Track H" "rock" "v4.5" 240

/-- C9: the generation succeeds but its artifact file does not exist,
so no duration estimate can be made. -/
def envC9 : Env :=
  { custom_generate := fun _ => Except.ok genMissing
    extend_audio := fun _ => Except.ok ext60 }

/-- C9: extension disabled. -/
def pC9 : Params :=
  { modelo := "v4.5", prefer_wav := true, allow_mp3_to_wav := true,
    duracao_alvo := 360, extend_enabled := false, extends_max := 2,
    retries := 3, timeout := 480 }

/-- C9: a fresh track. -/
def faixaC9 : Faixa := mkFaixa "Track I" "rock" "v4.5" 360

/-! ### Bridging lemmas for the kernel-reducible rational operations -/

/-- `ratAdd` is rational addition. -/
theorem ratAdd_eq_add (q r : ℚ) : ratAdd q r = q + r := by
  rw [ratAdd, Rat.mkRat_eq_divInt, Nat.cast_mul, ← Rat.add_num_den]

/-- `sizeDur` is division of the byte count by `44100 * 2`. -/
theorem sizeDur_eq_div (s : Nat) : sizeDur s = (s : ℚ) / (44100 * 2) := by
  rw [sizeDur, Rat.mkRat_eq_div]
  norm_num

/-! ### Per-iteration and per-loop structural lemmas -/

/-- Everything a single loop iteration can produce — the resulting row
and every snapshot it commits — satisfies `IterStateOk`: `tentativas`
equals the attempt number, `eventos` is untouched, `extends_usados`
grows by at most one and only under `a ≤ extends_max`; moreover a
`continue` outcome always comes from a successful extension. -/
theorem runIter_state (env : Env) (p : Params) (a : Nat) (f : Faixa) :
    (∀ f1 tr, runIter env p a f = IterOut.stop f1 tr →
      IterStateOk p a f f1 ∧ ∀ s ∈ tr, IterStateOk p a f s) ∧
    (∀ f1 tr, runIter env p a f = IterOut.next f1 tr →
      (IterStateOk p a f f1 ∧ f1.extends_usados = f.extends_usados + 1 ∧ a ≤ p.extends_max) ∧
      ∀ s ∈ tr, IterStateOk p a f s) := by
  cases hg : env.custom_generate a with
  | error e =>
    refine ⟨?_, ?_⟩ <;> intro f1 tr h <;> simp only [runIter, hg] at h
    · injection h with h1 h2
      subst h1; subst h2
      refine ⟨⟨rfl, rfl, Or.inl rfl⟩, ?_⟩
      intro s hs
      simp only [List.mem_singleton] at hs
      subst hs
      exact ⟨rfl, rfl, Or.inl rfl⟩
    · exact IterOut.noConfusion h
  | ok g =>
    by_cases hd : durTruthyGe (afterGen g { f with tentativas := a }).duracao_final p.duracao_alvo
    · refine ⟨?_, ?_⟩ <;> intro f1 tr h <;> simp only [runIter, hg, hd, if_true] at h
      · injection h with h1 h2
        subst h1; subst h2
        refine ⟨⟨rfl, rfl, Or.inl rfl⟩, ?_⟩
        intro s hs
        simp only [List.mem_cons, List.mem_singleton] at hs
        rcases hs with hs | hs | hs
        · subst hs; exact ⟨rfl, rfl, Or.inl rfl⟩
        · subst hs; exact ⟨rfl, rfl, Or.inl rfl⟩
        · cases hs
      · exact IterOut.noConfusion h
    · by_cases he : p.extend_enabled = true ∧ a ≤ p.extends_max
      · cases hx : env.extend_audio a with
        | error e =>
          refine ⟨?_, ?_⟩ <;> intro f1 tr h <;>
            simp only [runIter, hg, hd, if_false, he, if_true, hx] at h
          · injection h with h1 h2
            subst h1; subst h2
            refine ⟨⟨rfl, rfl, Or.inl rfl⟩, ?_⟩
            intro s hs
            simp only [List.mem_cons, List.mem_singleton] at hs
            rcases hs with hs | hs | hs | hs
            · subst hs; exact ⟨rfl, rfl, Or.inl rfl⟩
            · subst hs; exact ⟨rfl, rfl, Or.inl rfl⟩
            · subst hs; exact ⟨rfl, rfl, Or.inl rfl⟩
            · cases hs
          · exact IterOut.noConfusion h
        | ok x =>
          by_cases hr : p.duracao_alvo ≤
              ((afterExtend x { afterGen g { f with tentativas := a } with
                status := StatusEnum.ESTENDENDO }).duracao_final.getD 0)
          · refine ⟨?_, ?_⟩ <;> intro f1 tr h <;>
              simp only [runIter, hg, hd, if_false, he, if_true, hx, hr] at h
            · injection h with h1 h2
              subst h1; subst h2
              refine ⟨⟨rfl, rfl, Or.inr ⟨rfl, he.2⟩⟩, ?_⟩
              intro s hs
              simp only [List.mem_cons, List.mem_singleton] at hs
              rcases hs with hs | hs | hs | hs | hs
              · subst hs; exact ⟨rfl, rfl, Or.inl rfl⟩
              · subst hs; exact ⟨rfl, rfl, Or.inl rfl⟩
              · subst hs; exact ⟨rfl, rfl, Or.inr ⟨rfl, he.2⟩⟩
              · subst hs; exact ⟨rfl, rfl, Or.inr ⟨rfl, he.2⟩⟩
              · cases hs
            · exact IterOut.noConfusion h
          · refine ⟨?_, ?_⟩ <;> intro f1 tr h <;>
              simp only [runIter, hg, hd, if_false, he, if_true, hx, hr] at h
            · exact IterOut.noConfusion h
            · injection h with h1 h2
              subst h1; subst h2
              refine ⟨⟨⟨rfl, rfl, Or.inr ⟨rfl, he.2⟩⟩, rfl, he.2⟩, ?_⟩
              intro s hs
              simp only [List.mem_cons, List.mem_singleton] at hs
              rcases hs with hs | hs | hs | hs
              · subst hs; exact ⟨rfl, rfl, Or.inl rfl⟩
              · subst hs; exact ⟨rfl, rfl, Or.inl rfl⟩
              · subst hs; exact ⟨rfl, rfl, Or.inr ⟨rfl, he.2⟩⟩
              · cases hs
      · refine ⟨?_, ?_⟩ <;> intro f1 tr h <;>
          simp only [runIter, hg, hd, if_false, he, if_true] at h
        · injection h with h1 h2
          subst h1; subst h2
          refine ⟨⟨rfl, rfl, Or.inl rfl⟩, ?_⟩
          intro s hs
          simp only [List.mem_cons, List.mem_singleton] at hs
          rcases hs with hs | hs | hs
          · subst hs; exact ⟨rfl, rfl, Or.inl rfl⟩
          · subst hs; exact ⟨rfl, rfl, Or.inl rfl⟩
          · cases hs
        · exact IterOut.noConfusion h

/-- Throughout the loop, `tentativas` stays at most `attempts + gas`,
i.e. at most `retries + 1` for the loop as started by `process_faixa`. -/
theorem processLoopAux_tentativas (env : Env) (p : Params) :
    ∀ gas attempts f, f.tentativas ≤ attempts →
      (processLoopAux env p gas attempts f).1.tentativas ≤ attempts + gas ∧
      ∀ s ∈ (processLoopAux env p gas attempts f).2, s.tentativas ≤ attempts + gas := by
  intro gas
  induction gas with
  | zero =>
    intro attempts f hf
    refine ⟨hf, ?_⟩
    intro s hs
    simp only [processLoopAux, List.mem_singleton] at hs
    subst hs
    exact hf
  | succ gas ih =>
    intro attempts f hf
    have hstep := runIter_state env p (attempts + 1) f
    simp only [processLoopAux]
    cases hR : runIter env p (attempts + 1) f with
    | stop f1 tr =>
      dsimp only
      obtain ⟨h1, h2⟩ := hstep.1 f1 tr hR
      refine ⟨?_, ?_⟩
      · have := h1.1; omega
      · intro s hs
        have := (h2 s hs).1
        omega
    | next f1 tr =>
      dsimp only
      obtain ⟨⟨hsk, _, _⟩, h2⟩ := hstep.2 f1 tr hR
      have hrec := ih (attempts + 1) f1 (le_of_eq hsk.1)
      refine ⟨?_, ?_⟩
      · have := hrec.1; omega
      · intro s hs
        simp only [List.mem_append] at hs
        rcases hs with hs | hs
        · have := (h2 s hs).1; omega
        · have := hrec.2 s hs; omega

/-- Throughout the loop, `extends_usados` never exceeds `extends_max`,
provided it starts at most `attempts` and at most `extends_max`. -/
theorem processLoopAux_extends (env : Env) (p : Params) :
    ∀ gas attempts f, f.extends_usados ≤ attempts →
      f.extends_usados ≤ p.extends_max →
      (processLoopAux env p gas attempts f).1.extends_usados ≤ p.extends_max ∧
      ∀ s ∈ (processLoopAux env p gas attempts f).2, s.extends_usados ≤ p.extends_max := by
  intro gas
  induction gas with
  | zero =>
    intro attempts f _ hm
    refine ⟨hm, ?_⟩
    intro s hs
    simp only [processLoopAux, List.mem_singleton] at hs
    subst hs
    exact hm
  | succ gas ih =>
    intro attempts f ha hm
    have hstep := runIter_state env p (attempts + 1) f
    simp only [processLoopAux]
    cases hR : runIter env p (attempts + 1) f with
    | stop f1 tr =>
      dsimp only
      obtain ⟨h1, h2⟩ := hstep.1 f1 tr hR
      refine ⟨?_, ?_⟩
      · rcases h1.2.2 with h | ⟨h, hle⟩ <;> omega
      · intro s hs
        rcases (h2 s hs).2.2 with h | ⟨h, hle⟩ <;> omega
    | next f1 tr =>
      dsimp only
      obtain ⟨⟨_, hinc, hle⟩, h2⟩ := hstep.2 f1 tr hR
      have hrec := ih (attempts + 1) f1 (by omega) (by omega)
      refine ⟨hrec.1, ?_⟩
      intro s hs
      simp only [List.mem_append] at hs
      rcases hs with hs | hs
      · rcases (h2 s hs).2.2 with h | ⟨h, hle2⟩ <;> omega
      · exact hrec.2 s hs

/-- The loop never touches the event list: neither the resulting row
nor any committed snapshot differs from the input row in `eventos`. -/
theorem processLoopAux_eventos (env : Env) (p : Params) :
    ∀ gas attempts f,
      (processLoopAux env p gas attempts f).1.eventos = f.eventos ∧
      ∀ s ∈ (processLoopAux env p gas attempts f).2, s.eventos = f.eventos := by
  intro gas
  induction gas with
  | zero =>
    intro attempts f
    refine ⟨rfl, ?_⟩
    intro s hs
    simp only [processLoopAux, List.mem_singleton] at hs
    subst hs
    rfl
  | succ gas ih =>
    intro attempts f
    have hstep := runIter_state env p (attempts + 1) f
    simp only [processLoopAux]
    cases hR : runIter env p (attempts + 1) f with
    | stop f1 tr =>
      dsimp only
      obtain ⟨h1, h2⟩ := hstep.1 f1 tr hR
      exact ⟨h1.2.1, fun s hs => (h2 s hs).2.1⟩
    | next f1 tr =>
      dsimp only
      obtain ⟨⟨hsk, _, _⟩, h2⟩ := hstep.2 f1 tr hR
      have hrec := ih (attempts + 1) f1
      refine ⟨hrec.1.trans hsk.2.1, ?_⟩
      intro s hs
      simp only [List.mem_append] at hs
      rcases hs with hs | hs
      · exact (h2 s hs).2.1
      · exact (hrec.2 s hs).trans hsk.2.1

/-- A single iteration does not depend on the `timeout` parameter. -/
theorem runIter_timeout (env : Env) (p : Params) (t : ℚ) (a : Nat) (f : Faixa) :
    runIter env { p with timeout := t } a f = runIter env p a f := rfl

/-- The whole loop does not depend on the `timeout` parameter. -/
theorem processLoopAux_timeout (env : Env) (p : Params) (t : ℚ) :
    ∀ gas attempts f,
      processLoopAux env { p with timeout := t } gas attempts f =
        processLoopAux env p gas attempts f := by
  intro gas
  induction gas with
  | zero => intro attempts f; rfl
  | succ gas ih =>
    intro attempts f
    simp only [processLoopAux, runIter_timeout]
    cases runIter env p (attempts + 1) f with
    | stop f1 tr => rfl
    | next f1 tr => simp only [ih]

/-! ### Claim theorems -/

/-- C1 (counterexample): with three retries configured, a single failed
first generation attempt already leaves the track in status `ERRO` with
`tentativas = 1` — the loop is not continued to the next attempt even
though attempts remain, contradicting the claim that `ERROR` is reached
only after all configured attempts have failed. -/
theorem C1_counterexample :
    (finalFaixa envC1 pC1 faixaC1).status = StatusEnum.ERRO ∧
    (finalFaixa envC1 pC1 faixaC1).tentativas = 1 ∧
    pC1.retries = 3 := by
  decide

/-- C1 (amended): if the generation call of the first attempt raises,
the exception escapes the retry loop to the outer handler: the track
immediately ends in status `ERRO` with the failure detail stored and
`tentativas = 1`, even when further attempts remain
(`1 ≤ retries`). -/
theorem C1_amended (env : Env) (p : Params) (f : Faixa) (e : String)
    (hg : env.custom_generate 1 = Except.error e) (_hrem : 1 ≤ p.retries) :
    (finalFaixa env p f).status = StatusEnum.ERRO ∧
    (finalFaixa env p f).erros = some e ∧
    (finalFaixa env p f).tentativas = 1 := by
  simp only [finalFaixa, runFaixa, processLoop, processLoopAux, runIter, Nat.zero_add,
    hg, setErro]
  exact ⟨trivial, trivial, trivial⟩

/-- C1 (witness for the amended theorem). -/
theorem C1_witness :
    (finalFaixa envC1 pC1 faixaC1).status = StatusEnum.ERRO ∧
    (finalFaixa envC1 pC1 faixaC1).erros = some "GenerationFailure: simulated" ∧
    (finalFaixa envC1 pC1 faixaC1).tentativas = 1 :=
  C1_amended envC1 pC1 faixaC1 "GenerationFailure: simulated" rfl (by decide)

/-- C2 (counterexample): a successful 150 s generation against a 240 s
target followed by a failing extension call leaves the track in status
`ERRO`, not `FINALIZADA` — a failed extension is fatal to the job,
contradicting the claim. -/
theorem C2_counterexample :
    (finalFaixa envC2 pC2 faixaC2).status = StatusEnum.ERRO ∧
    (finalFaixa envC2 pC2 faixaC2).status ≠ StatusEnum.FINALIZADA := by
  decide

/-- C2 (amended): if the extension call of the first iteration raises,
the exception escapes the extend phase to the outer handler: the track
ends in status `ERRO` (never `FINALIZADA` in that run) with the failure
detail stored, though the duration estimate of the successful generation
is kept on the row. -/
theorem C2_amended (env : Env) (p : Params) (f : Faixa) (g : GenOk) (e : String)
    (hg : env.custom_generate 1 = Except.ok g)
    (hnr : durTruthyGe (genDur g) p.duracao_alvo = false)
    (hen : p.extend_enabled = true)
    (hex : 1 ≤ p.extends_max)
    (hxe : env.extend_audio 1 = Except.error e) :
    (finalFaixa env p f).status = StatusEnum.ERRO ∧
    (finalFaixa env p f).erros = some e ∧
    (finalFaixa env p f).duracao_final = genDur g := by
  have hnr2 : durTruthyGe (Option.map sizeDur g.file_size) p.duracao_alvo = false := hnr
  simp only [finalFaixa, runFaixa, processLoop, processLoopAux, runIter, Nat.zero_add,
    hg, hxe, afterGen, genDur, setErro, hnr2, hen, hex, and_self, if_true, if_false,
    Bool.false_eq_true]

/-- C2 (witness for the amended theorem). -/
theorem C2_witness :
    (finalFaixa envC2 pC2 faixaC2).status = StatusEnum.ERRO ∧
    (finalFaixa envC2 pC2 faixaC2).erros = some "ExtensionFailure: simulated" ∧
    (finalFaixa envC2 pC2 faixaC2).duracao_final = genDur gen150 :=
  C2_amended envC2 pC2 faixaC2 gen150 "ExtensionFailure: simulated"
    rfl (by decide) rfl (by decide) rfl

/-- C3 (counterexample): in the Scenario-B configuration (one track,
extension enabled, target 240 s, generation estimated 150 s,
extends_max 2, every extension succeeding at 60 s), the final estimated
duration is not 270 s, and the track performs further generation
attempts after the first success (`tentativas = 3`, not 1). -/
theorem C3_counterexample :
    (finalFaixa envC3 pC3 faixaC3).duracao_final ≠ some 270 ∧
    (finalFaixa envC3 pC3 faixaC3).tentativas = 3 := by
  decide

/-- C3 (amended): in the Scenario-B configuration the track does end in
status `FINALIZADA` with extends-used = 2, but with final estimated
duration 150 s and `tentativas = 3`: each insufficient extension is
followed by a fresh generation that overwrites the duration estimate, so
the extension gains are discarded and 270 s is never retained. -/
theorem C3_amended :
    (finalFaixa envC3 pC3 faixaC3).status = StatusEnum.FINALIZADA ∧
    (finalFaixa envC3 pC3 faixaC3).extends_usados = 2 ∧
    (finalFaixa envC3 pC3 faixaC3).tentativas = 3 ∧
    (finalFaixa envC3 pC3 faixaC3).duracao_final = some 150 := by
  decide

/-- C4 (counterexample): with `retries = 0` a single successful attempt
already sets `tentativas = 1 > 0 = retries`: the attempt counter does
exceed the configured retry limit, because the loop condition
`attempts <= retries` is checked before the increment, allowing
`retries + 1` attempts. -/
theorem C4_counterexample :
    pC4.retries < (finalFaixa envC4 pC4 faixaC4).tentativas := by
  decide

/-- C4 (amended): for a track whose attempt counter starts at `0`, at
every committed point during processing and at the end, `tentativas`
never exceeds `retries + 1` (rather than `retries`). -/
theorem C4_amended (env : Env) (p : Params) (f : Faixa) (h0 : f.tentativas = 0) :
    (finalFaixa env p f).tentativas ≤ p.retries + 1 ∧
    ∀ s ∈ faixaTrace env p f, s.tentativas ≤ p.retries + 1 := by
  have hmain := processLoopAux_tentativas env p (p.retries + 1) 0
    { f with tempo_submissao := true, status := StatusEnum.GERANDO } (le_of_eq h0)
  constructor
  · have := hmain.1
    simp only [finalFaixa, runFaixa, processLoop]
    omega
  · intro s hs
    simp only [faixaTrace, runFaixa, processLoop, List.mem_cons, List.mem_append,
      List.mem_singleton, List.not_mem_nil, or_false] at hs
    rcases hs with hs | hs | hs
    · simp only [hs]
      omega
    · have := hmain.2 s hs; omega
    · have := hmain.1
      simp only [hs]
      omega

/-- C4 (witness for the amended theorem). -/
theorem C4_witness :
    (finalFaixa envC4 pC4 faixaC4).tentativas ≤ pC4.retries + 1 :=
  (C4_amended envC4 pC4 faixaC4 rfl).1

/-- C5 (confirmed): for a track whose extends counter starts at `0`, at
every committed point during processing and at the end,
`extends_usados` never exceeds the batch's `extends_max`. -/
theorem C5_thm (env : Env) (p : Params) (f : Faixa) (h0 : f.extends_usados = 0) :
    (finalFaixa env p f).extends_usados ≤ p.extends_max ∧
    ∀ s ∈ faixaTrace env p f, s.extends_usados ≤ p.extends_max := by
  have hmain := processLoopAux_extends env p (p.retries + 1) 0
    { f with tempo_submissao := true, status := StatusEnum.GERANDO }
    (le_of_eq h0) (by simp [h0])
  constructor
  · have := hmain.1
    simp only [finalFaixa, runFaixa, processLoop]
    omega
  · intro s hs
    simp only [faixaTrace, runFaixa, processLoop, List.mem_cons, List.mem_append,
      List.mem_singleton, List.not_mem_nil, or_false] at hs
    rcases hs with hs | hs | hs
    · simp only [hs, h0]
      omega
    · exact hmain.2 s hs
    · have := hmain.1
      simp only [hs]
      omega

/-- C5 (witness). -/
theorem C5_witness :
    (finalFaixa envC5 pC5 faixaC5).extends_usados ≤ pC5.extends_max :=
  (C5_thm envC5 pC5 faixaC5 rfl).1

/-- C6 (counterexample): a fresh track processed to the terminal status
`FINALIZADA` ends with an empty event list — `process_faixa` never
creates an `EventoFaixa` record, contradicting the claim that every
terminal track has a non-empty event sequence. -/
theorem C6_counterexample :
    (finalFaixa envC6 pC6 faixaC6).status = StatusEnum.FINALIZADA ∧
    (finalFaixa envC6 pC6 faixaC6).eventos = [] := by
  decide

/-- C6 (amended): `process_faixa` appends no audit events at all: after
processing — and at every committed point during it — a track's
`eventos` list is exactly what it was before the run (so it is empty,
and vacuously strictly increasing, for a track that reaches a terminal
status starting from intake, where the event list is empty). -/
theorem C6_amended (env : Env) (p : Params) (f : Faixa) :
    (finalFaixa env p f).eventos = f.eventos ∧
    ∀ s ∈ faixaTrace env p f, s.eventos = f.eventos := by
  have hmain := processLoopAux_eventos env p (p.retries + 1) 0
    { f with tempo_submissao := true, status := StatusEnum.GERANDO }
  constructor
  · exact hmain.1
  · intro s hs
    simp only [faixaTrace, runFaixa, processLoop, List.mem_cons, List.mem_append,
      List.mem_singleton, List.not_mem_nil, or_false] at hs
    rcases hs with hs | hs | hs
    · simp only [hs]
    · exact hmain.2 s hs
    · have := hmain.1
      simp only [hs]
      exact this

/-- C7 (counterexample): a timed-out first generation attempt (the
awaited call raises a timeout error) aborts the track's whole run, not
just that attempt: with two retries configured the track ends in status
`ERRO` with `tentativas = 1`, contradicting the claim that exceeding
the deadline is absorbed as a single attempt failure. -/
theorem C7_counterexample :
    (finalFaixa envC7 pC7 faixaC7).status = StatusEnum.ERRO ∧
    (finalFaixa envC7 pC7 faixaC7).tentativas = 1 ∧
    pC7.retries = 2 := by
  decide

/-- C7 (amended): the per-attempt `timeout` parameter is accepted by
`process_faixa` but never applied: processing is identical for every
value of `timeout` — no deadline bounds the generation call. -/
theorem C7_amended (env : Env) (p : Params) (t : ℚ) (st : Option Faixa) :
    process_faixa env { p with timeout := t } st = process_faixa env p st := by
  cases st with
  | none => rfl
  | some f =>
    simp only [process_faixa, runFaixa, processLoop, processLoopAux_timeout]

/-- C8 (confirmed): after a successful extension that still leaves the
estimated duration below the target, the iteration ends in `continue`
and the loop re-enters at the next attempt number with the extended row
— no second extension is issued directly; the next iteration's
generation (here: returning `g2`) sets `tentativas` to the new attempt
number, resets `ids_suno` to only the key `"initial"` (discarding the
recorded `extend_<n>` identifiers) and overwrites `duracao_final` with
the new generation's estimate. -/
theorem C8_thm (env : Env) (p : Params) (gas attempts : Nat) (f : Faixa)
    (g : GenOk) (x : ExtOk) (g2 : GenOk)
    (hg : env.custom_generate (attempts + 1) = Except.ok g)
    (hnr : durTruthyGe (genDur g) p.duracao_alvo = false)
    (hen : p.extend_enabled = true)
    (hax : attempts + 1 ≤ p.extends_max)
    (hx : env.extend_audio (attempts + 1) = Except.ok x)
    (hlow : ¬ p.duracao_alvo ≤ (genExtState (attempts + 1) g x f).duracao_final.getD 0) :
    processLoopAux env p (gas + 1) attempts f =
      ((processLoopAux env p gas (attempts + 1) (genExtState (attempts + 1) g x f)).1,
        [afterGen g { f with tentativas := attempts + 1 },
         { afterGen g { f with tentativas := attempts + 1 } with
            status := StatusEnum.ESTENDENDO },
         genExtState (attempts + 1) g x f] ++
          (processLoopAux env p gas (attempts + 1) (genExtState (attempts + 1) g x f)).2) ∧
    (genExtState (attempts + 1) g x f).extends_usados = f.extends_usados + 1 ∧
    (afterGen g2 { genExtState (attempts + 1) g x f with
        tentativas := attempts + 2 }).tentativas = attempts + 2 ∧
    (afterGen g2 { genExtState (attempts + 1) g x f with
        tentativas := attempts + 2 }).ids_suno = [("initial", g2.gen_id)] ∧
    (afterGen g2 { genExtState (attempts + 1) g x f with
        tentativas := attempts + 2 }).duracao_final = genDur g2 := by
  have hnr2 : durTruthyGe (Option.map sizeDur g.file_size) p.duracao_alvo = false := hnr
  refine ⟨?_, rfl, rfl, rfl, rfl⟩
  simp only [processLoopAux, runIter, hg, hx, genExtState, afterExtend, afterGen, genDur,
    setErro, hnr2, hen, hax, and_self, if_true, if_false, Bool.false_eq_true]
  rw [if_neg ?_]
  exact fun hc => hlow hc

/-- C8 (witness): the regeneration step at attempt 1 of the Scenario-B
configuration, instantiated with the concrete 150 s generations and
60 s extension. -/
theorem C8_witness :
    processLoopAux envC8 pC8 (3 + 1) 0 faixaC8 =
      ((processLoopAux envC8 pC8 3 (0 + 1) (genExtState (0 + 1) gen150 ext60 faixaC8)).1,
        [afterGen gen150 { faixaC8 with tentativas := 0 + 1 },
         { afterGen gen150 { faixaC8 with tentativas := 0 + 1 } with
            status := StatusEnum.ESTENDENDO },
         genExtState (0 + 1) gen150 ext60 faixaC8] ++
          (processLoopAux envC8 pC8 3 (0 + 1) (genExtState (0 + 1) gen150 ext60 faixaC8)).2) ∧
    (genExtState (0 + 1) gen150 ext60 faixaC8).extends_usados = faixaC8.extends_usados + 1 ∧
    (afterGen gen150 { genExtState (0 + 1) gen150 ext60 faixaC8 with
        tentativas := 0 + 2 }).tentativas = 0 + 2 ∧
    (afterGen gen150 { genExtState (0 + 1) gen150 ext60 faixaC8 with
        tentativas := 0 + 2 }).ids_suno = [("initial", gen150.gen_id)] ∧
    (afterGen gen150 { genExtState (0 + 1) gen150 ext60 faixaC8 with
        tentativas := 0 + 2 }).duracao_final = genDur gen150 :=
  C8_thm envC8 pC8 3 0 faixaC8 gen150 ext60 gen150
    rfl (by decide) rfl (by decide) rfl (by decide)

/-- C9 (confirmed): when a generation succeeds but its estimate does not
pass the target test, and extension is disabled or the attempt number
exceeds `extends_max`, the iteration finalizes immediately: the track is
committed with status `FINALIZADA` and whatever duration estimate the
generation produced — which may be below the target, or `none` when the
artifact file does not exist. -/
theorem C9_thm (env : Env) (p : Params) (a : Nat) (f : Faixa) (g : GenOk)
    (hg : env.custom_generate a = Except.ok g)
    (hnr : durTruthyGe (genDur g) p.duracao_alvo = false)
    (hnx : p.extend_enabled = false ∨ p.extends_max < a) :
    runIter env p a f =
      IterOut.stop (genFinalize a g f)
        [afterGen g { f with tentativas := a }, genFinalize a g f] ∧
    (genFinalize a g f).status = StatusEnum.FINALIZADA ∧
    (genFinalize a g f).duracao_final = genDur g := by
  have hnr2 : durTruthyGe (Option.map sizeDur g.file_size) p.duracao_alvo = false := hnr
  refine ⟨?_, rfl, rfl⟩
  have hcond : ¬ (p.extend_enabled = true ∧ a ≤ p.extends_max) := by
    rcases hnx with h | h
    · intro hc
      rw [h] at hc
      exact Bool.false_ne_true hc.1
    · intro hc
      omega
  simp only [runIter, hg, genFinalize, afterGen, genDur, hnr2, Bool.false_eq_true,
    if_false, hcond]

/-- C9 (witness): extension disabled and a generation whose artifact
file does not exist — the track finalizes with `duracao_final = none`
(`genDur genMissing = none`). -/
theorem C9_witness :
    runIter envC9 pC9 1 faixaC9 =
      IterOut.stop (genFinalize 1 genMissing faixaC9)
        [afterGen genMissing { faixaC9 with tentativas := 1 },
         genFinalize 1 genMissing faixaC9] ∧
    (genFinalize 1 genMissing faixaC9).status = StatusEnum.FINALIZADA ∧
    (genFinalize 1 genMissing faixaC9).duracao_final = genDur genMissing :=
  C9_thm envC9 pC9 1 faixaC9 genMissing rfl rfl (Or.inl rfl)

/-- C10 (confirmed): when the track identifier does not resolve to a
stored row, `process_faixa` returns `none`: no row is updated and no
snapshot is committed — a silent no-op, not an error. -/
theorem C10_thm (env : Env) (p : Params) :
    process_faixa env p none = none := rfl

end DraMusicas
